import Mathlib

/-!
Verification of the image-generation tools of the Dream Weaver repository
(`src/tools.py`): a shallow embedding of `generate_image` and `edit_image`
and proofs of the specified properties.

Modelling conventions:
* Python strings are Lean `String`s; `str.strip()` and `str.upper()` are
  re-implemented over `String.data` (`pyStrip`, `pyUpper`) so that every
  definition kernel-evaluates.
* The outcome of each effect (the remote API call, `os.makedirs`, the
  base64-decode-and-write of one image, `open` on a source file) is an
  oracle field of an `Env` record; quantifying over `Env` quantifies over
  every behaviour of the outside world.  A raised Python exception is the
  `Except.error` case carrying `str(e)`.
* Dollar amounts are exact: token counts are integers and every rate is a
  multiple of $5 per 1e6 tokens, so a cost is carried as an integer number
  of micro-dollars and the `:.4f` rendering is `fmt4Div`.  The float
  expressions of the source are transcribed separately over `ℚ`
  (`gen_input_cost`, ...) and linked to the micro-dollar values by proved
  bridge lemmas.
* `edit_image`'s file streams are tracked by two lists on the result:
  the paths opened and the paths closed, in order.
-/

/-- The whitespace set of Python `str.strip()` (ASCII part). -/
def pyWs (c : Char) : Bool :=
  c = ' ' || c = '\t' || c = '\n' || c = '\x0d' || c = '\x0b' || c = '\x0c'

/-- Python `s.strip()`. -/
def pyStrip (s : String) : String :=
  ⟨((s.data.dropWhile pyWs).reverse.dropWhile pyWs).reverse⟩

/-- Python `s.upper()` (ASCII-faithful). -/
def pyUpper (s : String) : String := ⟨s.data.map Char.toUpper⟩

/-- Zero-pad a natural number to four digits. -/
def pad4 (n : Nat) : String :=
  ⟨List.replicate (4 - (Nat.repr n).length) '0'⟩ ++ Nat.repr n

/-- Insert a thousands separator every three digits (reversed digit list). -/
def insertCommasRev : List Char → Nat → List Char
  | [], _ => []
  | c :: cs, i =>
    if i % 3 = 0 ∧ i ≠ 0 then ',' :: c :: insertCommasRev cs (i + 1)
    else c :: insertCommasRev cs (i + 1)

/-- Python `f"{n:,}"` for a natural number. -/
def commaFmt (n : Nat) : String :=
  ⟨(insertCommasRev (Nat.repr n).data.reverse 0).reverse⟩

/-- Python `f"{x:.4f}"` where `x` is the dollar amount
`micro / (1_000_000 * divisor)`: round to four decimals and render.
(The tie-breaking of binary-float rendering is modelled as round-half-up;
no property below depends on ties.) -/
def fmt4Div (micro divisor : Nat) : String :=
  let s := (2 * micro + 100 * divisor) / (200 * divisor)
  Nat.repr (s / 10000) ++ "." ++ pad4 (s % 10000)

/-- Python `prompt[:300]` followed by the conditional ellipsis of the report
templates in `tools.py`. -/
def promptEcho (prompt : String) : String :=
  (⟨prompt.data.take 300⟩ : String) ++ (if prompt.data.length > 300 then "..." else "")

/-! ## Data model (response of the remote service, configuration) -/

/-- `response.usage.input_tokens_details`. -/
structure InputTokensDetails where
  text_tokens : Nat
  image_tokens : Nat
deriving DecidableEq, Repr

/-- `response.usage`. -/
structure Usage where
  input_tokens_details : InputTokensDetails
  output_tokens : Nat
  total_tokens : Nat
deriving DecidableEq, Repr

/-- One element of `response.data`: a base64 payload. -/
structure ImageData where
  b64_json : String
deriving DecidableEq, Repr

/-- The remote service's response: creation timestamp, usage, images. -/
structure ImagesResponse where
  created : Nat
  usage : Usage
  data : List ImageData
deriving DecidableEq, Repr

/-- `config = dotenv_values(".env")`, reduced to the single key the code
reads.  `some ""` models a present-but-empty value (falsy in Python). -/
structure Config where
  openai_api_key : Option String
deriving DecidableEq, Repr

/-- Outcomes of every effect performed by the two tools.  `Except.error e`
models a raised exception with `str(e) = e`. -/
structure Env where
  remote_generate : Except String ImagesResponse
  remote_edit : Except String ImagesResponse
  mkdir : Except String Unit
  save : String → String → Except String Unit
  openFile : String → Except String Unit
  fmtTimestamp : Nat → String

/-- The `image_files` argument of `edit_image`: Python `None`, a single
path string, or a list of path strings. -/
inductive ImageFiles
  | noFile
  | single (path : String)
  | multiple (paths : List String)
deriving DecidableEq, Repr

/-- Result of `generate_image`: the returned pair plus whether the remote
endpoint was invoked. -/
structure CallResult where
  paths : List String
  report : String
  remoteCalled : Bool
deriving DecidableEq, Repr

/-- Result of `edit_image`: the returned pair, whether the remote endpoint
was invoked, and the file streams opened and closed (in order). -/
structure EditResult where
  paths : List String
  report : String
  remoteCalled : Bool
  opened : List String
  closed : List String
deriving DecidableEq, Repr

/-! ## Cost model over ℚ (transcribed from `tools.py` lines 118-120, 293-295) -/

/-- `input_cost = (text_tokens / 1_000_000) * 5.00` (generation). -/
def gen_input_cost (text_tokens : Nat) : ℚ := ((text_tokens : ℚ) / 1000000) * 5

/-- `output_cost = (usage.output_tokens / 1_000_000) * 40.00`. -/
def gen_output_cost (output_tokens : Nat) : ℚ := ((output_tokens : ℚ) / 1000000) * 40

/-- `total_cost = input_cost + output_cost` (generation). -/
def gen_total_cost (text_tokens output_tokens : Nat) : ℚ :=
  gen_input_cost text_tokens + gen_output_cost output_tokens

/-- `input_cost = (text_tokens / 1_000_000) * 5.00 + (image_tokens / 1_000_000) * 10.00` (edit). -/
def edit_input_cost (text_tokens image_tokens : Nat) : ℚ :=
  ((text_tokens : ℚ) / 1000000) * 5 + ((image_tokens : ℚ) / 1000000) * 10

/-- `output_cost = (usage.output_tokens / 1_000_000) * 40.00` (edit). -/
def edit_output_cost (output_tokens : Nat) : ℚ := ((output_tokens : ℚ) / 1000000) * 40

/-- `total_cost = input_cost + output_cost` (edit). -/
def edit_total_cost (text_tokens image_tokens output_tokens : Nat) : ℚ :=
  edit_input_cost text_tokens image_tokens + edit_output_cost output_tokens

/-- `total_cost / len(image_paths)`. -/
def per_image_cost (total : ℚ) (count : Nat) : ℚ := total / count

/-- The same costs in exact micro-dollars (integer): generation input. -/
def gen_input_micro (text_tokens : Nat) : Nat := 5 * text_tokens

/-- Output cost in micro-dollars (both tools). -/
def out_micro (output_tokens : Nat) : Nat := 40 * output_tokens

/-- Edit input cost in micro-dollars. -/
def edit_input_micro (text_tokens image_tokens : Nat) : Nat :=
  5 * text_tokens + 10 * image_tokens

/-! ## Report strings (transcribed from the f-string templates of `tools.py`) -/

/-- Validation message for an empty generation prompt (line 72). -/
def genPromptEmptyErr : String := "❌ **Error:** Prompt cannot be empty."

/-- Validation message for a missing API key (lines 76 and 231). -/
def keyMissingErr : String :=
  "❌ **Error:** OpenAI API key not found in environment variables."

/-- Validation message for a missing image upload (line 224). -/
def editImgMissingErr : String := "❌ **Error:** Please upload at least one image file."

/-- Validation message for an empty edit prompt (line 227). -/
def editPromptEmptyErr : String := "❌ **Error:** Edit prompt cannot be empty."

/-- The `except` branch of `generate_image` (lines 153-164). -/
def genError (e : String) : String :=
  "## ❌ Generation Failed\n\n**Error:** " ++ e ++
  "\n\n**Troubleshooting:**\n- Verify OpenAI API key is valid\n- Check prompt length (max 32,000 characters)\n- Ensure sufficient API credits\n- Try different quality/size settings\n"

/-- The `except` branch of `edit_image` (lines 328-340). -/
def editError (e : String) : String :=
  "## ❌ Edit Failed\n\n**Error:** " ++ e ++
  "\n\n**Troubleshooting:**\n- Ensure images are PNG, JPEG, or WebP format\n- Check file sizes (max 50MB per image)\n- Verify mask has alpha channel and matches image dimensions\n- Try simpler edit instructions\n- Reduce number of input images\n"

/-- The success report of `generate_image` (lines 123-149). -/
def generationInfo (env : Env) (model : String) (numImages : Nat)
    (quality size output_format background : String)
    (output_compression created text_tokens image_tokens output_tokens total_tokens : Nat)
    (prompt : String) : String :=
  "## ✅ Images Generated Successfully!\n\n### 📊 Generation Details\n- **Model:** " ++ model ++
  "\n- **Images Created:** " ++ Nat.repr numImages ++
  "\n- **Quality:** " ++ quality ++
  "\n- **Size:** " ++ size ++
  " \n- **Format:** " ++ pyUpper output_format ++
  "\n- **Background:** " ++ background ++
  "\n- **Compression:** " ++ Nat.repr output_compression ++
  "%\n- **Created:** " ++ env.fmtTimestamp created ++
  "\n\n### 🔢 Token Usage\n- **Text Tokens:** " ++ commaFmt text_tokens ++
  "\n- **Image Tokens:** " ++ commaFmt image_tokens ++
  "\n- **Output Tokens:** " ++ commaFmt output_tokens ++
  "\n- **Total Tokens:** " ++ commaFmt total_tokens ++
  "\n\n### 💰 Cost Breakdown\n" ++
  "- **Input Cost:** $" ++ fmt4Div (gen_input_micro text_tokens) 1 ++
  "\n" ++ "- **Output Cost:** $" ++ fmt4Div (out_micro output_tokens) 1 ++
  "\n" ++ "- **Total Cost:** $" ++ fmt4Div (gen_input_micro text_tokens + out_micro output_tokens) 1 ++
  "\n" ++ "- **Cost per Image:** $" ++ fmt4Div (gen_input_micro text_tokens + out_micro output_tokens) numImages ++
  "\n\n### 📝 Prompt\n\"" ++ promptEcho prompt ++ "\"\n"

/-- The success report of `edit_image` (lines 298-324). -/
def editInfo (env : Env) (model : String) (image_count numImages : Nat)
    (quality size background : String) (maskOn : Bool)
    (created text_tokens image_tokens output_tokens total_tokens : Nat)
    (prompt : String) : String :=
  "## ✅ Images Edited Successfully!\n\n### 📊 Edit Details\n- **Model:** " ++ model ++
  "\n- **Input Images:** " ++ Nat.repr image_count ++
  "\n- **Output Images:** " ++ Nat.repr numImages ++
  "\n- **Quality:** " ++ quality ++
  "\n- **Size:** " ++ size ++
  "\n- **Background:** " ++ background ++
  "\n- **Mask Applied:** " ++ (if maskOn then "Yes" else "No") ++
  "\n- **Created:** " ++ env.fmtTimestamp created ++
  "\n\n### 🔢 Token Usage\n- **Text Tokens:** " ++ commaFmt text_tokens ++
  "\n- **Input Image Tokens:** " ++ commaFmt image_tokens ++
  "\n- **Output Tokens:** " ++ commaFmt output_tokens ++
  "\n- **Total Tokens:** " ++ commaFmt total_tokens ++
  "\n\n### 💰 Cost Breakdown\n" ++
  "- **Input Cost:** $" ++ fmt4Div (edit_input_micro text_tokens image_tokens) 1 ++
  " (text + images)\n" ++ "- **Output Cost:** $" ++ fmt4Div (out_micro output_tokens) 1 ++
  "\n" ++ "- **Total Cost:** $" ++ fmt4Div (edit_input_micro text_tokens image_tokens + out_micro output_tokens) 1 ++
  "\n" ++ "- **Cost per Output Image:** $" ++ fmt4Div (edit_input_micro text_tokens image_tokens + out_micro output_tokens) numImages ++
  "\n\n### 📝 Edit Instructions\n\"" ++ promptEcho prompt ++ "\"\n"

/-! ## The two tools -/

/-- `extension = "jpg" if output_format == "jpeg" else output_format` (line 99). -/
def genExt (output_format : String) : String :=
  if output_format = "jpeg" then "jpg" else output_format

/-- The save loop of both tools (lines 102-112 / 277-287): for image `i`
build `generated_images/{fnamePre}{created}_{i+1}.{ext}`, decode and write
it (`env.save`, which may raise), and collect the written paths in order. -/
def saveLoop (save : String → String → Except String Unit) (fnamePre : String)
    (created : Nat) (ext : String) : List ImageData → Nat → Except String (List String)
  | [], _ => .ok []
  | d :: ds, i =>
    match save ("generated_images/" ++ fnamePre ++ Nat.repr created ++ "_" ++
        Nat.repr (i + 1) ++ "." ++ ext) d.b64_json with
    | .error e => .error e
    | .ok _ =>
      match saveLoop save fnamePre created ext ds (i + 1) with
      | .error e => .error e
      | .ok rest => .ok (("generated_images/" ++ fnamePre ++ Nat.repr created ++ "_" ++
          Nat.repr (i + 1) ++ "." ++ ext) :: rest)

/-- Shallow embedding of `generate_image` (`tools.py` lines 12-164). -/
def generate_image (cfg : Config) (env : Env) (prompt background model moderation : String)
    (n output_compression : Nat) (output_format quality size : String) : CallResult :=
  if pyStrip prompt = "" then
    { paths := [], report := genPromptEmptyErr, remoteCalled := false }
  else
    match cfg.openai_api_key with
    | none => { paths := [], report := keyMissingErr, remoteCalled := false }
    | some k =>
      if k = "" then { paths := [], report := keyMissingErr, remoteCalled := false }
      else
        match env.remote_generate with
        | .error e => { paths := [], report := genError e, remoteCalled := true }
        | .ok resp =>
          match env.mkdir with
          | .error e => { paths := [], report := genError e, remoteCalled := true }
          | .ok _ =>
            match saveLoop env.save "generated_" resp.created (genExt output_format)
                resp.data 0 with
            | .error e => { paths := [], report := genError e, remoteCalled := true }
            | .ok image_paths =>
              if image_paths.length = 0 then
                -- `total_cost/len(image_paths)` in the f-string raises
                { paths := [], report := genError "float division by zero",
                  remoteCalled := true }
              else
                { paths := image_paths,
                  report := generationInfo env model image_paths.length quality size
                    output_format background output_compression resp.created
                    resp.usage.input_tokens_details.text_tokens
                    resp.usage.input_tokens_details.image_tokens
                    resp.usage.output_tokens resp.usage.total_tokens prompt,
                  remoteCalled := true }

/-- Python truthiness of the `mask_file` argument (`if mask_file:`). -/
def maskTruthy : Option String → Bool
  | none => false
  | some s => s ≠ ""

/-- The list-comprehension `[open(img_path, "rb") for img_path in image_files]`
(lines 236-243): open each path in order; on a raised exception the paths
already opened stay open and are returned with the error. -/
def openAll (openF : String → Except String Unit) :
    List String → Except (String × List String) (List String)
  | [] => .ok []
  | p :: ps =>
    match openF p with
    | .error e => .error (e, [])
    | .ok _ =>
      match openAll openF ps with
      | .error (e, opened) => .error (e, p :: opened)
      | .ok opened => .ok (p :: opened)

/-- The source paths denoted by the `image_files` argument. -/
def srcPaths : ImageFiles → List String
  | .noFile => []
  | .single p => [p]
  | .multiple ps => ps

/-- Shallow embedding of `edit_image` (`tools.py` lines 166-340). -/
def edit_image (cfg : Config) (env : Env) (image_files : ImageFiles)
    (prompt background : String) (mask_file : Option String)
    (model : String) (n : Nat) (quality size : String) : EditResult :=
  if image_files = ImageFiles.noFile then
    { paths := [], report := editImgMissingErr, remoteCalled := false,
      opened := [], closed := [] }
  else if pyStrip prompt = "" then
    { paths := [], report := editPromptEmptyErr, remoteCalled := false,
      opened := [], closed := [] }
  else
    match cfg.openai_api_key with
    | none =>
      { paths := [], report := keyMissingErr, remoteCalled := false,
        opened := [], closed := [] }
    | some k =>
      if k = "" then
        { paths := [], report := keyMissingErr, remoteCalled := false,
          opened := [], closed := [] }
      else
        match openAll env.openFile (srcPaths image_files) with
        | .error (e, opened) =>
          { paths := [], report := editError e, remoteCalled := false,
            opened := opened, closed := [] }
        | .ok opened =>
          if (srcPaths image_files).length = 0 then
            -- `images[0]` while building `edit_params` raises
            { paths := [], report := editError "list index out of range",
              remoteCalled := false, opened := opened, closed := [] }
          else
            match (if maskTruthy mask_file then env.openFile ((mask_file).getD "")
                else Except.ok ()) with
            | .error e =>
              { paths := [], report := editError e, remoteCalled := false,
                opened := opened, closed := [] }
            | .ok _ =>
              let openedAll := opened ++
                (if maskTruthy mask_file then [(mask_file).getD ""] else [])
              match env.remote_edit with
              | .error e =>
                -- the exception skips the close loop: nothing is closed
                { paths := [], report := editError e, remoteCalled := true,
                  opened := openedAll, closed := [] }
              | .ok resp =>
                match env.mkdir with
                | .error e =>
                  { paths := [], report := editError e, remoteCalled := true,
                    opened := openedAll, closed := openedAll }
                | .ok _ =>
                  match saveLoop env.save "edited_" resp.created "png" resp.data 0 with
                  | .error e =>
                    { paths := [], report := editError e, remoteCalled := true,
                      opened := openedAll, closed := openedAll }
                  | .ok image_paths =>
                    if image_paths.length = 0 then
                      { paths := [], report := editError "float division by zero",
                        remoteCalled := true, opened := openedAll, closed := openedAll }
                    else
                      { paths := image_paths,
                        report := editInfo env model (srcPaths image_files).length
                          image_paths.length quality size background
                          (maskTruthy mask_file) resp.created
                          resp.usage.input_tokens_details.text_tokens
                          resp.usage.input_tokens_details.image_tokens
                          resp.usage.output_tokens resp.usage.total_tokens prompt,
                        remoteCalled := true, opened := openedAll, closed := openedAll }

/-! ## List-level substring helpers -/

/-- A list is an infix of itself followed by anything. -/
theorem infix_head {α : Type} (q rest : List α) : q <:+: q ++ rest :=
  ⟨[], rest, by simp⟩

/-- Two consecutive chunks form an infix. -/
theorem infix_pair {α : Type} (a b rest : List α) : a ++ b <:+: a ++ (b ++ rest) :=
  ⟨[], rest, by simp⟩

/-- An infix survives prepending a chunk. -/
theorem infix_ext {α : Type} (a : List α) {q X : List α} (h : q <:+: X) :
    q <:+: a ++ X := by
  obtain ⟨s, t, rfl⟩ := h
  exact ⟨a ++ s, t, by simp⟩

/-- An infix survives appending a chunk. -/
theorem infix_extr {α : Type} (b : List α) {q X : List α} (h : q <:+: X) :
    q <:+: X ++ b := by
  obtain ⟨s, t, rfl⟩ := h
  exact ⟨s, t ++ b, by simp⟩

/-- A prefix of the first chunk is a prefix of the whole. -/
theorem prefix_ext {α : Type} {q a : List α} (b : List α) (h : q <+: a) :
    q <+: a ++ b := by
  obtain ⟨t, rfl⟩ := h
  exact ⟨t ++ b, by simp⟩

/-- A prefix no longer than the first chunk is a prefix of that chunk. -/
theorem prefix_confine {α : Type} {q a : List α} {b : List α}
    (h : q <+: a ++ b) (hlen : q.length ≤ a.length) : q <+: a := by
  obtain ⟨t, ht⟩ := h
  have h1 : (a ++ b).take q.length = q := by
    rw [← ht, List.take_left]
  rw [← h1, List.take_append_eq_append_take, Nat.sub_eq_zero_of_le hlen]
  simpa using List.take_prefix q.length a

/-! ## Facts about the save loop -/

/-- `saveLoop` returns one path per response image. -/
theorem saveLoop_length (save : String → String → Except String Unit)
    (fnamePre : String) (created : Nat) (ext : String) :
    ∀ (ds : List ImageData) (i : Nat) (l : List String),
      saveLoop save fnamePre created ext ds i = .ok l → l.length = ds.length := by
  intro ds
  induction ds with
  | nil =>
    intro i l h
    simp only [saveLoop] at h
    injection h with h
    simp [← h]
  | cons d ds ih =>
    intro i l h
    simp only [saveLoop] at h
    split at h
    · exact absurd h (by simp)
    · split at h
      · exact absurd h (by simp)
      · next rest heq =>
        injection h with h
        simp [← h, ih (i + 1) rest heq]

/-- Every path produced by `saveLoop` has the template shape. -/
theorem saveLoop_shape (save : String → String → Except String Unit)
    (fnamePre : String) (created : Nat) (ext : String) :
    ∀ (ds : List ImageData) (i : Nat) (l : List String),
      saveLoop save fnamePre created ext ds i = .ok l →
      ∀ p ∈ l, ∃ j, p = "generated_images/" ++ fnamePre ++ Nat.repr created ++ "_" ++
        Nat.repr (j + 1) ++ "." ++ ext := by
  intro ds
  induction ds with
  | nil =>
    intro i l h p hp
    simp only [saveLoop] at h
    injection h with h
    rw [← h] at hp
    exact absurd hp (by simp)
  | cons d ds ih =>
    intro i l h p hp
    simp only [saveLoop] at h
    split at h
    · exact absurd h (by simp)
    · split at h
      · exact absurd h (by simp)
      · next rest heq =>
        injection h with h
        rw [← h, List.mem_cons] at hp
        rcases hp with hp | hp
        · exact ⟨i, hp⟩
        · exact ih (i + 1) rest heq p hp

/-! ## Shape of the report strings -/

/-- Every error report of `generate_image`'s `except` branch carries the
error marker. -/
theorem errTag_genError (e : String) : "❌".data <:+: (genError e).data := by
  simp only [genError, String.data_append]
  exact infix_extr _ (infix_extr _ (by decide))

/-- Every error report of `edit_image`'s `except` branch carries the
error marker. -/
theorem errTag_editError (e : String) : "❌".data <:+: (editError e).data := by
  simp only [editError, String.data_append]
  exact infix_extr _ (infix_extr _ (by decide))

/-- The generation success report starts with its success banner. -/
theorem genInfoBanner {env : Env} {model : String} {N : Nat}
    {quality size output_format background : String} {oc c tt it ot tot : Nat}
    {prompt : String} :
    "## ✅ Images Generated Successfully!".data <+:
      (generationInfo env model N quality size output_format background oc c tt it ot tot
        prompt).data := by
  simp only [generationInfo, String.data_append]
  repeat apply prefix_ext
  decide

/-- The edit success report starts with its success banner. -/
theorem editInfoBanner {env : Env} {model : String} {ic N : Nat}
    {quality size background : String} {maskOn : Bool} {c tt it ot tot : Nat}
    {prompt : String} :
    "## ✅ Images Edited Successfully!".data <+:
      (editInfo env model ic N quality size background maskOn c tt it ot tot
        prompt).data := by
  simp only [editInfo, String.data_append]
  repeat apply prefix_ext
  decide

/-- The generation report quotes the requested quality verbatim. -/
theorem genInfo_quality {env : Env} {model : String} {N : Nat}
    {quality size output_format background : String} {oc c tt it ot tot : Nat}
    {prompt : String} :
    quality.data <:+: (generationInfo env model N quality size output_format background
      oc c tt it ot tot prompt).data := by
  simp only [generationInfo, String.data_append, List.append_assoc]
  repeat first
  | exact infix_pair _ _ _
  | exact infix_head _ _
  | apply infix_ext

/-- The generation report quotes the requested size verbatim. -/
theorem genInfo_size {env : Env} {model : String} {N : Nat}
    {quality size output_format background : String} {oc c tt it ot tot : Nat}
    {prompt : String} :
    size.data <:+: (generationInfo env model N quality size output_format background
      oc c tt it ot tot prompt).data := by
  simp only [generationInfo, String.data_append, List.append_assoc]
  repeat first
  | exact infix_pair _ _ _
  | exact infix_head _ _
  | apply infix_ext

/-- The generation report quotes the output format upper-cased. -/
theorem genInfo_upperFmt {env : Env} {model : String} {N : Nat}
    {quality size output_format background : String} {oc c tt it ot tot : Nat}
    {prompt : String} :
    (pyUpper output_format).data <:+: (generationInfo env model N quality size
      output_format background oc c tt it ot tot prompt).data := by
  simp only [generationInfo, String.data_append, List.append_assoc]
  repeat first
  | exact infix_pair _ _ _
  | exact infix_head _ _
  | apply infix_ext

/-- The generation report shows the input cost computed from the text tokens. -/
theorem genInfo_inputCost {env : Env} {model : String} {N : Nat}
    {quality size output_format background : String} {oc c tt it ot tot : Nat}
    {prompt : String} :
    ("- **Input Cost:** $" ++ fmt4Div (gen_input_micro tt) 1).data <:+:
      (generationInfo env model N quality size output_format background
        oc c tt it ot tot prompt).data := by
  simp only [generationInfo, String.data_append, List.append_assoc]
  repeat first
  | exact infix_pair _ _ _
  | exact infix_head _ _
  | apply infix_ext

/-- The generation report shows the output cost computed from the output tokens. -/
theorem genInfo_outputCost {env : Env} {model : String} {N : Nat}
    {quality size output_format background : String} {oc c tt it ot tot : Nat}
    {prompt : String} :
    ("- **Output Cost:** $" ++ fmt4Div (out_micro ot) 1).data <:+:
      (generationInfo env model N quality size output_format background
        oc c tt it ot tot prompt).data := by
  simp only [generationInfo, String.data_append, List.append_assoc]
  repeat first
  | exact infix_pair _ _ _
  | exact infix_head _ _
  | apply infix_ext

/-- The generation report shows the total cost as the sum of the two. -/
theorem genInfo_totalCost {env : Env} {model : String} {N : Nat}
    {quality size output_format background : String} {oc c tt it ot tot : Nat}
    {prompt : String} :
    ("- **Total Cost:** $" ++ fmt4Div (gen_input_micro tt + out_micro ot) 1).data <:+:
      (generationInfo env model N quality size output_format background
        oc c tt it ot tot prompt).data := by
  simp only [generationInfo, String.data_append, List.append_assoc]
  repeat first
  | exact infix_pair _ _ _
  | exact infix_head _ _
  | apply infix_ext

/-- The edit report shows the input cost computed from text and image tokens. -/
theorem editInfo_inputCost {env : Env} {model : String} {ic N : Nat}
    {quality size background : String} {maskOn : Bool} {c tt it ot tot : Nat}
    {prompt : String} :
    ("- **Input Cost:** $" ++ fmt4Div (edit_input_micro tt it) 1).data <:+:
      (editInfo env model ic N quality size background maskOn c tt it ot tot
        prompt).data := by
  simp only [editInfo, String.data_append, List.append_assoc]
  repeat first
  | exact infix_pair _ _ _
  | exact infix_head _ _
  | apply infix_ext

/-- The edit report shows the output cost computed from the output tokens. -/
theorem editInfo_outputCost {env : Env} {model : String} {ic N : Nat}
    {quality size background : String} {maskOn : Bool} {c tt it ot tot : Nat}
    {prompt : String} :
    ("- **Output Cost:** $" ++ fmt4Div (out_micro ot) 1).data <:+:
      (editInfo env model ic N quality size background maskOn c tt it ot tot
        prompt).data := by
  simp only [editInfo, String.data_append, List.append_assoc]
  repeat first
  | exact infix_pair _ _ _
  | exact infix_head _ _
  | apply infix_ext

/-- The edit report shows the total cost as the sum of the two. -/
theorem editInfo_totalCost {env : Env} {model : String} {ic N : Nat}
    {quality size background : String} {maskOn : Bool} {c tt it ot tot : Nat}
    {prompt : String} :
    ("- **Total Cost:** $" ++ fmt4Div (edit_input_micro tt it + out_micro ot) 1).data <:+:
      (editInfo env model ic N quality size background maskOn c tt it ot tot
        prompt).data := by
  simp only [editInfo, String.data_append, List.append_assoc]
  repeat first
  | exact infix_pair _ _ _
  | exact infix_head _ _
  | apply infix_ext

/-- The edit report divides the total cost by the number of output images. -/
theorem editInfo_perImage {env : Env} {model : String} {ic N : Nat}
    {quality size background : String} {maskOn : Bool} {c tt it ot tot : Nat}
    {prompt : String} :
    ("- **Cost per Output Image:** $" ++
      fmt4Div (edit_input_micro tt it + out_micro ot) N).data <:+:
      (editInfo env model ic N quality size background maskOn c tt it ot tot
        prompt).data := by
  simp only [editInfo, String.data_append, List.append_assoc]
  repeat first
  | exact infix_pair _ _ _
  | exact infix_head _ _
  | apply infix_ext

/-! ## Branch-reduction lemmas -/

/-- On the all-effects-succeed path, `generate_image` returns the saved
paths and the success report. -/
theorem generate_image_success (cfg : Config) (env : Env)
    (prompt background model moderation : String) (n oc : Nat)
    (output_format quality size : String)
    (hp : ¬ pyStrip prompt = "") (k : String) (hk : cfg.openai_api_key = some k)
    (hkne : ¬ k = "") (resp : ImagesResponse) (hr : env.remote_generate = .ok resp)
    (hm : env.mkdir = .ok ()) (l : List String)
    (hs : saveLoop env.save "generated_" resp.created (genExt output_format) resp.data 0 =
      .ok l) (hne : ¬ l.length = 0) :
    generate_image cfg env prompt background model moderation n oc output_format quality
        size =
      { paths := l,
        report := generationInfo env model l.length quality size output_format background
          oc resp.created resp.usage.input_tokens_details.text_tokens
          resp.usage.input_tokens_details.image_tokens resp.usage.output_tokens
          resp.usage.total_tokens prompt,
        remoteCalled := true } := by
  simp only [generate_image, hk, hr, hm, hs, if_neg hp, if_neg hkne, if_neg hne]

/-- On the all-effects-succeed path, `edit_image` returns the saved paths,
the success report, and closes exactly the streams it opened. -/
theorem edit_image_success (cfg : Config) (env : Env) (image_files : ImageFiles)
    (prompt background : String) (mask_file : Option String) (model : String) (n : Nat)
    (quality size : String)
    (himg : ¬ image_files = ImageFiles.noFile) (hp : ¬ pyStrip prompt = "")
    (k : String) (hk : cfg.openai_api_key = some k) (hkne : ¬ k = "")
    (opened : List String)
    (ho : openAll env.openFile (srcPaths image_files) = .ok opened)
    (hcnt : ¬ (srcPaths image_files).length = 0)
    (hmask : (if maskTruthy mask_file then env.openFile ((mask_file).getD "")
      else Except.ok ()) = .ok ())
    (resp : ImagesResponse) (hr : env.remote_edit = .ok resp)
    (hm : env.mkdir = .ok ()) (l : List String)
    (hs : saveLoop env.save "edited_" resp.created "png" resp.data 0 = .ok l)
    (hne : ¬ l.length = 0) :
    edit_image cfg env image_files prompt background mask_file model n quality size =
      { paths := l,
        report := editInfo env model (srcPaths image_files).length l.length quality size
          background (maskTruthy mask_file) resp.created
          resp.usage.input_tokens_details.text_tokens
          resp.usage.input_tokens_details.image_tokens resp.usage.output_tokens
          resp.usage.total_tokens prompt,
        remoteCalled := true,
        opened := opened ++ (if maskTruthy mask_file then [(mask_file).getD ""] else []),
        closed := opened ++ (if maskTruthy mask_file then [(mask_file).getD ""] else []) } := by
  simp only [edit_image, hk, ho, hmask, hr, hm, hs, if_neg himg, if_neg hp, if_neg hkne,
    if_neg hcnt, if_neg hne]

/-- When the remote edit call raises, the opened streams are never closed. -/
theorem edit_image_remote_error (cfg : Config) (env : Env) (image_files : ImageFiles)
    (prompt background : String) (mask_file : Option String) (model : String) (n : Nat)
    (quality size : String)
    (himg : ¬ image_files = ImageFiles.noFile) (hp : ¬ pyStrip prompt = "")
    (k : String) (hk : cfg.openai_api_key = some k) (hkne : ¬ k = "")
    (opened : List String)
    (ho : openAll env.openFile (srcPaths image_files) = .ok opened)
    (hcnt : ¬ (srcPaths image_files).length = 0)
    (hmask : (if maskTruthy mask_file then env.openFile ((mask_file).getD "")
      else Except.ok ()) = .ok ())
    (e : String) (hr : env.remote_edit = .error e) :
    edit_image cfg env image_files prompt background mask_file model n quality size =
      { paths := [], report := editError e, remoteCalled := true,
        opened := opened ++ (if maskTruthy mask_file then [(mask_file).getD ""] else []),
        closed := [] } := by
  simp only [edit_image, hk, ho, hmask, hr, if_neg himg, if_neg hp, if_neg hkne,
    if_neg hcnt]

/-- Prefixes agree on any initial segment. -/
theorem prefix_take {α : Type} {q X : List α} (h : q <+: X) {n : Nat}
    (hn : n ≤ q.length) : X.take n = q.take n := by
  obtain ⟨t, rfl⟩ := h
  rw [List.take_append_eq_append_take, Nat.sub_eq_zero_of_le hn]
  simp

/-- A success banner is not a prefix of a string whose first chunk differs
within the first four characters. -/
theorem bannerNotHead {tag lit1 : String} (mid rest2 : List Char)
    (hne : ¬ lit1.data.take 4 = tag.data.take 4) (hlen4 : 4 ≤ tag.data.length)
    (hlit : 4 ≤ lit1.data.length) :
    ¬ tag.data <+: lit1.data ++ mid ++ rest2 := by
  intro h
  rw [List.append_assoc] at h
  have h4 := prefix_take h hlen4
  rw [List.take_append_eq_append_take, Nat.sub_eq_zero_of_le hlit] at h4
  simp only [List.take_zero, List.append_nil] at h4
  exact hne h4

/-- The generation banner never heads an error report of `generate_image`. -/
theorem genBanner_not_in_error (e : String) :
    ¬ "## ✅ Images Generated Successfully!".data <+: (genError e).data := by
  simp only [genError, String.data_append]
  exact bannerNotHead e.data _ (by decide) (by decide) (by decide)

/-- The edit banner never heads an error report of `edit_image`. -/
theorem editBanner_not_in_error (e : String) :
    ¬ "## ✅ Images Edited Successfully!".data <+: (editError e).data := by
  simp only [editError, String.data_append]
  exact bannerNotHead e.data _ (by decide) (by decide) (by decide)

/-- Exhaustive shape analysis of `generate_image`: a validation failure, a
caught exception, or a success with a non-empty saved-path list. -/
theorem generate_image_shape (cfg : Config) (env : Env)
    (prompt background model moderation : String) (n oc : Nat)
    (output_format quality size : String) :
    (∃ m, generate_image cfg env prompt background model moderation n oc output_format
        quality size = ⟨[], m, false⟩ ∧ "❌".data <:+: m.data ∧
        ¬ "## ✅ Images Generated Successfully!".data <+: m.data) ∨
    (∃ e, generate_image cfg env prompt background model moderation n oc output_format
        quality size = ⟨[], genError e, true⟩) ∨
    (∃ resp l, env.remote_generate = .ok resp ∧
      saveLoop env.save "generated_" resp.created (genExt output_format) resp.data 0 =
        .ok l ∧ l ≠ [] ∧
      generate_image cfg env prompt background model moderation n oc output_format
        quality size =
        ⟨l, generationInfo env model l.length quality size output_format background oc
          resp.created resp.usage.input_tokens_details.text_tokens
          resp.usage.input_tokens_details.image_tokens resp.usage.output_tokens
          resp.usage.total_tokens prompt, true⟩) := by
  by_cases hp : pyStrip prompt = ""
  · exact Or.inl ⟨genPromptEmptyErr, by simp only [generate_image, if_pos hp],
      by decide, by decide⟩
  · cases hko : cfg.openai_api_key with
    | none =>
      exact Or.inl ⟨keyMissingErr, by simp only [generate_image, if_neg hp, hko],
        by decide, by decide⟩
    | some k =>
      by_cases hke : k = ""
      · exact Or.inl ⟨keyMissingErr,
          by simp only [generate_image, if_neg hp, hko, if_pos hke], by decide, by decide⟩
      · cases hr : env.remote_generate with
        | error e =>
          exact Or.inr (Or.inl ⟨e,
            by simp only [generate_image, if_neg hp, hko, if_neg hke, hr]⟩)
        | ok resp =>
          cases hmk : env.mkdir with
          | error e =>
            exact Or.inr (Or.inl ⟨e,
              by simp only [generate_image, if_neg hp, hko, if_neg hke, hr, hmk]⟩)
          | ok u =>
            cases u
            cases hs : saveLoop env.save "generated_" resp.created (genExt output_format)
                resp.data 0 with
            | error e =>
              exact Or.inr (Or.inl ⟨e,
                by simp only [generate_image, if_neg hp, hko, if_neg hke, hr, hmk, hs]⟩)
            | ok l =>
              by_cases hne : l.length = 0
              · exact Or.inr (Or.inl ⟨"float division by zero",
                  by simp only [generate_image, if_neg hp, hko, if_neg hke, hr, hmk, hs,
                    if_pos hne]⟩)
              · exact Or.inr (Or.inr ⟨resp, l, rfl, hs,
                  fun h => hne (by simp [h]),
                  generate_image_success cfg env prompt background model moderation n oc
                    output_format quality size hp k hko hke resp hr hmk l hs hne⟩)

/-- Exhaustive shape analysis of `edit_image`: a pre-call failure, a caught
exception after the call, or a success with a non-empty saved-path list. -/
theorem edit_image_shape (cfg : Config) (env : Env) (image_files : ImageFiles)
    (prompt background : String) (mask_file : Option String) (model : String) (n : Nat)
    (quality size : String) :
    (∃ m op, edit_image cfg env image_files prompt background mask_file model n quality
        size = ⟨[], m, false, op, []⟩ ∧ "❌".data <:+: m.data ∧
        ¬ "## ✅ Images Edited Successfully!".data <+: m.data) ∨
    (∃ e op cl, edit_image cfg env image_files prompt background mask_file model n
        quality size = ⟨[], editError e, true, op, cl⟩) ∨
    (∃ resp l op, env.remote_edit = .ok resp ∧
      saveLoop env.save "edited_" resp.created "png" resp.data 0 = .ok l ∧ l ≠ [] ∧
      edit_image cfg env image_files prompt background mask_file model n quality size =
        ⟨l, editInfo env model (srcPaths image_files).length l.length quality size
          background (maskTruthy mask_file) resp.created
          resp.usage.input_tokens_details.text_tokens
          resp.usage.input_tokens_details.image_tokens resp.usage.output_tokens
          resp.usage.total_tokens prompt, true, op, op⟩) := by
  by_cases himg : image_files = ImageFiles.noFile
  · exact Or.inl ⟨editImgMissingErr, [], by simp only [edit_image, if_pos himg],
      by decide, by decide⟩
  · by_cases hp : pyStrip prompt = ""
    · exact Or.inl ⟨editPromptEmptyErr, [],
        by simp only [edit_image, if_neg himg, if_pos hp], by decide, by decide⟩
    · cases hko : cfg.openai_api_key with
      | none =>
        exact Or.inl ⟨keyMissingErr, [],
          by simp only [edit_image, if_neg himg, if_neg hp, hko], by decide, by decide⟩
      | some k =>
        by_cases hke : k = ""
        · exact Or.inl ⟨keyMissingErr, [],
            by simp only [edit_image, if_neg himg, if_neg hp, hko, if_pos hke],
            by decide, by decide⟩
        · cases ho : openAll env.openFile (srcPaths image_files) with
          | error p =>
            exact Or.inl ⟨editError p.1, p.2,
              by simp only [edit_image, if_neg himg, if_neg hp, hko, if_neg hke, ho],
              errTag_editError p.1, editBanner_not_in_error p.1⟩
          | ok opened =>
            by_cases hcnt : (srcPaths image_files).length = 0
            · exact Or.inl ⟨editError "list index out of range", opened,
                by simp only [edit_image, if_neg himg, if_neg hp, hko, if_neg hke, ho,
                  if_pos hcnt],
                errTag_editError _, editBanner_not_in_error _⟩
            · cases hmask : (if maskTruthy mask_file then
                  env.openFile ((mask_file).getD "") else Except.ok ()) with
              | error e =>
                exact Or.inl ⟨editError e, opened,
                  by simp only [edit_image, if_neg himg, if_neg hp, hko, if_neg hke, ho,
                    if_neg hcnt, hmask],
                  errTag_editError e, editBanner_not_in_error e⟩
              | ok u =>
                cases u
                cases hre : env.remote_edit with
                | error e =>
                  exact Or.inr (Or.inl ⟨e, _, [],
                    edit_image_remote_error cfg env image_files prompt background
                      mask_file model n quality size himg hp k hko hke opened ho hcnt
                      hmask e hre⟩)
                | ok resp =>
                  cases hmk : env.mkdir with
                  | error e =>
                    exact Or.inr (Or.inl ⟨e, opened ++ (if maskTruthy mask_file then [(mask_file).getD ""] else []), opened ++ (if maskTruthy mask_file then [(mask_file).getD ""] else []),
                      by simp only [edit_image, if_neg himg, if_neg hp, hko, if_neg hke,
                        ho, if_neg hcnt, hmask, hre, hmk]⟩)
                  | ok u2 =>
                    cases u2
                    cases hs : saveLoop env.save "edited_" resp.created "png"
                        resp.data 0 with
                    | error e =>
                      exact Or.inr (Or.inl ⟨e, opened ++ (if maskTruthy mask_file then [(mask_file).getD ""] else []), opened ++ (if maskTruthy mask_file then [(mask_file).getD ""] else []),
                        by simp only [edit_image, if_neg himg, if_neg hp, hko, if_neg hke,
                          ho, if_neg hcnt, hmask, hre, hmk, hs]⟩)
                    | ok l =>
                      by_cases hne : l.length = 0
                      · exact Or.inr (Or.inl ⟨"float division by zero", opened ++ (if maskTruthy mask_file then [(mask_file).getD ""] else []), opened ++ (if maskTruthy mask_file then [(mask_file).getD ""] else []),
                          by simp only [edit_image, if_neg himg, if_neg hp, hko,
                            if_neg hke, ho, if_neg hcnt, hmask, hre, hmk, hs,
                            if_pos hne]⟩)
                      · exact Or.inr (Or.inr ⟨resp, l, _, rfl, hs,
                          fun h => hne (by simp [h]),
                          edit_image_success cfg env image_files prompt background
                            mask_file model n quality size himg hp k hko hke opened ho
                            hcnt hmask resp hre hmk l hs hne⟩)

set_option maxRecDepth 10000

/-! ## Concrete fixtures used by witnesses and counterexamples -/

/-- A response with one image. -/
def wResp1 : ImagesResponse := ⟨1700000000, ⟨⟨1000, 0⟩, 2000, 3000⟩, [⟨"aGk="⟩]⟩

/-- A response with two images. -/
def wResp2 : ImagesResponse := ⟨5, ⟨⟨1000, 0⟩, 2000, 3000⟩, [⟨"a"⟩, ⟨"b"⟩]⟩

/-- A response with zero images. -/
def wResp0 : ImagesResponse := ⟨5, ⟨⟨1000, 0⟩, 2000, 3000⟩, []⟩

/-- An environment in which every effect succeeds (one image back). -/
def wEnv1 : Env :=
  ⟨.ok wResp1, .ok wResp1, .ok (), fun _ _ => .ok (), fun _ => .ok (),
    fun _ => "2023-11-14 22:13:20"⟩

/-- An environment in which every effect succeeds (two images back). -/
def wEnv2 : Env :=
  ⟨.ok wResp2, .ok wResp2, .ok (), fun _ _ => .ok (), fun _ => .ok (), fun _ => "T"⟩

/-- An environment whose remote calls return zero images. -/
def wEnv0 : Env :=
  ⟨.ok wResp0, .ok wResp0, .ok (), fun _ _ => .ok (), fun _ => .ok (), fun _ => "T"⟩

/-- An environment whose remote edit call raises. -/
def wEnvBoom : Env :=
  ⟨.ok wResp1, .error "boom", .ok (), fun _ _ => .ok (), fun _ => .ok (), fun _ => "T"⟩

/-! ## The claims -/

/-- The failure/success dichotomy of a `generate_image` result: either the
empty list with an ❌-marked report, or a banner-headed success report with
a non-empty path list. -/
def noRaiseGen (r : CallResult) : Prop :=
  (r.paths = [] ∧ "❌".data <:+: r.report.data) ∨
  ("## ✅ Images Generated Successfully!".data <+: r.report.data ∧ r.paths ≠ [])

/-- The same dichotomy for an `edit_image` result. -/
def noRaiseEdit (r : EditResult) : Prop :=
  (r.paths = [] ∧ "❌".data <:+: r.report.data) ∨
  ("## ✅ Images Edited Successfully!".data <+: r.report.data ∧ r.paths ≠ [])

/-- C1: for every configuration, environment behaviour, and arguments,
`generate_image` and `edit_image` return a value (no exception escapes):
every failure yields `([], error report)` and every success yields the
list of saved file paths with the success report. -/
theorem never_raises (cfg : Config) (env : Env)
    (prompt background model moderation : String) (n oc : Nat)
    (output_format quality size : String) (image_files : ImageFiles)
    (mask_file : Option String) :
    noRaiseGen (generate_image cfg env prompt background model moderation n oc
      output_format quality size) ∧
    noRaiseEdit (edit_image cfg env image_files prompt background mask_file model n
      quality size) := by
  constructor
  · rcases generate_image_shape cfg env prompt background model moderation n oc
        output_format quality size with
      ⟨m, hm, htag, _⟩ | ⟨e, he⟩ | ⟨resp, l, _, _, hne, hsucc⟩
    · rw [hm]; exact Or.inl ⟨rfl, htag⟩
    · rw [he]; exact Or.inl ⟨rfl, errTag_genError e⟩
    · rw [hsucc]; exact Or.inr ⟨genInfoBanner, hne⟩
  · rcases edit_image_shape cfg env image_files prompt background mask_file model n
        quality size with
      ⟨m, op, hm, htag, _⟩ | ⟨e, op, cl, he⟩ | ⟨resp, l, op, _, _, hne, hsucc⟩
    · rw [hm]; exact Or.inl ⟨rfl, htag⟩
    · rw [he]; exact Or.inl ⟨rfl, errTag_editError e⟩
    · rw [hsucc]; exact Or.inr ⟨editInfoBanner, hne⟩

/-- C5: a prompt that is empty after stripping whitespace makes
`generate_image` return `([], error report)` without invoking the remote
service, and likewise `edit_image` for its instruction string, whatever
the other parameters are. -/
theorem empty_prompt_no_remote (cfg : Config) (env : Env)
    (prompt background model moderation : String) (n oc : Nat)
    (output_format quality size : String) (image_files : ImageFiles)
    (mask_file : Option String) (hp : pyStrip prompt = "") :
    generate_image cfg env prompt background model moderation n oc output_format
      quality size = ⟨[], genPromptEmptyErr, false⟩ ∧
    ((edit_image cfg env image_files prompt background mask_file model n quality
        size).paths = [] ∧
      "❌".data <:+: (edit_image cfg env image_files prompt background mask_file model n
        quality size).report.data ∧
      (edit_image cfg env image_files prompt background mask_file model n quality
        size).remoteCalled = false) := by
  constructor
  · simp only [generate_image, if_pos hp]
  · by_cases himg : image_files = ImageFiles.noFile
    · have h : edit_image cfg env image_files prompt background mask_file model n
          quality size = ⟨[], editImgMissingErr, false, [], []⟩ := by
        simp only [edit_image, if_pos himg]
      rw [h]
      exact ⟨rfl, by decide, rfl⟩
    · have h : edit_image cfg env image_files prompt background mask_file model n
          quality size = ⟨[], editPromptEmptyErr, false, [], []⟩ := by
        simp only [edit_image, if_neg himg, if_pos hp]
      rw [h]
      exact ⟨rfl, by decide, rfl⟩

/-- Witness for C5: a whitespace-only prompt at concrete inputs. -/
theorem empty_prompt_no_remote_witness :
    pyStrip "  " = "" ∧
    (generate_image ⟨some "k"⟩ wEnv1 "  " "auto" "gpt-image-1" "low" 1 85 "jpeg"
      "medium" "auto" = ⟨[], genPromptEmptyErr, false⟩ ∧
    ((edit_image ⟨some "k"⟩ wEnv1 (ImageFiles.single "i.png") "  " "auto" none
        "gpt-image-1" 1 "medium" "auto").paths = [] ∧
      "❌".data <:+: (edit_image ⟨some "k"⟩ wEnv1 (ImageFiles.single "i.png") "  "
        "auto" none "gpt-image-1" 1 "medium" "auto").report.data ∧
      (edit_image ⟨some "k"⟩ wEnv1 (ImageFiles.single "i.png") "  " "auto" none
        "gpt-image-1" 1 "medium" "auto").remoteCalled = false)) :=
  ⟨by decide,
    empty_prompt_no_remote ⟨some "k"⟩ wEnv1 "  " "auto" "gpt-image-1" "low" 1 85
      "jpeg" "medium" "auto" (ImageFiles.single "i.png") none (by decide)⟩

/-- C6: when the API credential is absent from the configuration, both
tools return `([], error report)` without invoking the remote service,
for every input. -/
theorem missing_key_no_remote (cfg : Config) (env : Env)
    (prompt background model moderation : String) (n oc : Nat)
    (output_format quality size : String) (image_files : ImageFiles)
    (mask_file : Option String) (hk : cfg.openai_api_key = none) :
    ((generate_image cfg env prompt background model moderation n oc output_format
        quality size).paths = [] ∧
      "❌".data <:+: (generate_image cfg env prompt background model moderation n oc
        output_format quality size).report.data ∧
      (generate_image cfg env prompt background model moderation n oc output_format
        quality size).remoteCalled = false) ∧
    ((edit_image cfg env image_files prompt background mask_file model n quality
        size).paths = [] ∧
      "❌".data <:+: (edit_image cfg env image_files prompt background mask_file model n
        quality size).report.data ∧
      (edit_image cfg env image_files prompt background mask_file model n quality
        size).remoteCalled = false) := by
  constructor
  · by_cases hp : pyStrip prompt = ""
    · have h : generate_image cfg env prompt background model moderation n oc
          output_format quality size = ⟨[], genPromptEmptyErr, false⟩ := by
        simp only [generate_image, if_pos hp]
      rw [h]
      exact ⟨rfl, by decide, rfl⟩
    · have h : generate_image cfg env prompt background model moderation n oc
          output_format quality size = ⟨[], keyMissingErr, false⟩ := by
        simp only [generate_image, if_neg hp, hk]
      rw [h]
      exact ⟨rfl, by decide, rfl⟩
  · by_cases himg : image_files = ImageFiles.noFile
    · have h : edit_image cfg env image_files prompt background mask_file model n
          quality size = ⟨[], editImgMissingErr, false, [], []⟩ := by
        simp only [edit_image, if_pos himg]
      rw [h]
      exact ⟨rfl, by decide, rfl⟩
    · by_cases hp : pyStrip prompt = ""
      · have h : edit_image cfg env image_files prompt background mask_file model n
            quality size = ⟨[], editPromptEmptyErr, false, [], []⟩ := by
          simp only [edit_image, if_neg himg, if_pos hp]
        rw [h]
        exact ⟨rfl, by decide, rfl⟩
      · have h : edit_image cfg env image_files prompt background mask_file model n
            quality size = ⟨[], keyMissingErr, false, [], []⟩ := by
          simp only [edit_image, if_neg himg, if_neg hp, hk]
        rw [h]
        exact ⟨rfl, by decide, rfl⟩

/-- Witness for C6 at concrete inputs with no credential. -/
theorem missing_key_no_remote_witness :
    (Config.mk none).openai_api_key = none ∧
    (((generate_image ⟨none⟩ wEnv1 "p" "auto" "gpt-image-1" "low" 1 85 "jpeg" "medium"
        "auto").paths = [] ∧
      "❌".data <:+: (generate_image ⟨none⟩ wEnv1 "p" "auto" "gpt-image-1" "low" 1 85
        "jpeg" "medium" "auto").report.data ∧
      (generate_image ⟨none⟩ wEnv1 "p" "auto" "gpt-image-1" "low" 1 85 "jpeg" "medium"
        "auto").remoteCalled = false) ∧
    ((edit_image ⟨none⟩ wEnv1 (ImageFiles.single "i.png") "p" "auto" none "gpt-image-1"
        1 "medium" "auto").paths = [] ∧
      "❌".data <:+: (edit_image ⟨none⟩ wEnv1 (ImageFiles.single "i.png") "p" "auto"
        none "gpt-image-1" 1 "medium" "auto").report.data ∧
      (edit_image ⟨none⟩ wEnv1 (ImageFiles.single "i.png") "p" "auto" none "gpt-image-1"
        1 "medium" "auto").remoteCalled = false)) :=
  ⟨rfl,
    missing_key_no_remote ⟨none⟩ wEnv1 "p" "auto" "gpt-image-1" "low" 1 85 "jpeg"
      "medium" "auto" (ImageFiles.single "i.png") none rfl⟩

/-- C7: a call to `edit_image` with no source images (Python `None` or an
empty list) returns `([], error report)` without invoking the remote
service. -/
theorem edit_no_images_no_remote (cfg : Config) (env : Env) (image_files : ImageFiles)
    (prompt background : String) (mask_file : Option String) (model : String) (n : Nat)
    (quality size : String)
    (himg : image_files = ImageFiles.noFile ∨ image_files = ImageFiles.multiple []) :
    (edit_image cfg env image_files prompt background mask_file model n quality
      size).paths = [] ∧
    "❌".data <:+: (edit_image cfg env image_files prompt background mask_file model n
      quality size).report.data ∧
    (edit_image cfg env image_files prompt background mask_file model n quality
      size).remoteCalled = false := by
  rcases himg with h | h
  · have heq : edit_image cfg env image_files prompt background mask_file model n
        quality size = ⟨[], editImgMissingErr, false, [], []⟩ := by
      simp only [edit_image, if_pos h]
    rw [heq]
    exact ⟨rfl, by decide, rfl⟩
  · subst h
    by_cases hp : pyStrip prompt = ""
    · have heq : edit_image cfg env (ImageFiles.multiple []) prompt background mask_file
          model n quality size = ⟨[], editPromptEmptyErr, false, [], []⟩ := by
        simp only [edit_image, if_neg (by decide :
          ¬ ImageFiles.multiple [] = ImageFiles.noFile), if_pos hp]
      rw [heq]
      exact ⟨rfl, by decide, rfl⟩
    · cases hko : cfg.openai_api_key with
      | none =>
        have heq : edit_image cfg env (ImageFiles.multiple []) prompt background
            mask_file model n quality size = ⟨[], keyMissingErr, false, [], []⟩ := by
          simp only [edit_image, if_neg (by decide :
            ¬ ImageFiles.multiple [] = ImageFiles.noFile), if_neg hp, hko]
        rw [heq]
        exact ⟨rfl, by decide, rfl⟩
      | some k =>
        by_cases hke : k = ""
        · have heq : edit_image cfg env (ImageFiles.multiple []) prompt background
              mask_file model n quality size = ⟨[], keyMissingErr, false, [], []⟩ := by
            simp only [edit_image, if_neg (by decide :
              ¬ ImageFiles.multiple [] = ImageFiles.noFile), if_neg hp, hko, if_pos hke]
          rw [heq]
          exact ⟨rfl, by decide, rfl⟩
        · have heq : edit_image cfg env (ImageFiles.multiple []) prompt background
              mask_file model n quality size =
              ⟨[], editError "list index out of range", false, [], []⟩ := by
            simp only [edit_image, if_neg (by decide :
              ¬ ImageFiles.multiple [] = ImageFiles.noFile), if_neg hp, hko, if_neg hke,
              srcPaths, openAll, List.length_nil, eq_self_iff_true, if_true]
          rw [heq]
          exact ⟨rfl, errTag_editError _, rfl⟩

/-- Witness for C7: the empty upload list at concrete inputs. -/
theorem edit_no_images_no_remote_witness :
    (ImageFiles.multiple [] = ImageFiles.noFile ∨
      ImageFiles.multiple ([] : List String) = ImageFiles.multiple []) ∧
    ((edit_image ⟨some "k"⟩ wEnv1 (ImageFiles.multiple []) "p" "auto" none "gpt-image-1"
        1 "medium" "auto").paths = [] ∧
      "❌".data <:+: (edit_image ⟨some "k"⟩ wEnv1 (ImageFiles.multiple []) "p" "auto"
        none "gpt-image-1" 1 "medium" "auto").report.data ∧
      (edit_image ⟨some "k"⟩ wEnv1 (ImageFiles.multiple []) "p" "auto" none
        "gpt-image-1" 1 "medium" "auto").remoteCalled = false) :=
  ⟨Or.inr rfl,
    edit_no_images_no_remote ⟨some "k"⟩ wEnv1 (ImageFiles.multiple []) "p" "auto" none
      "gpt-image-1" 1 "medium" "auto" (Or.inr rfl)⟩

/-- C10: a remote call that succeeds with zero images produces `([], error
report)` — the unguarded division by `len(image_paths)` raises and is
caught — so a success report only ever comes with a non-empty path list. -/
theorem zero_images_error_report (cfg : Config) (env : Env)
    (prompt background model moderation : String) (n oc : Nat)
    (output_format quality size : String) (image_files : ImageFiles)
    (mask_file : Option String) :
    (∀ resp, env.remote_generate = .ok resp → resp.data = [] →
      (generate_image cfg env prompt background model moderation n oc output_format
        quality size).paths = [] ∧
      "❌".data <:+: (generate_image cfg env prompt background model moderation n oc
        output_format quality size).report.data) ∧
    (∀ resp, env.remote_edit = .ok resp → resp.data = [] →
      (edit_image cfg env image_files prompt background mask_file model n quality
        size).paths = [] ∧
      "❌".data <:+: (edit_image cfg env image_files prompt background mask_file model n
        quality size).report.data) ∧
    ("## ✅ Images Generated Successfully!".data <+:
        (generate_image cfg env prompt background model moderation n oc output_format
          quality size).report.data →
      (generate_image cfg env prompt background model moderation n oc output_format
        quality size).paths ≠ []) ∧
    ("## ✅ Images Edited Successfully!".data <+:
        (edit_image cfg env image_files prompt background mask_file model n quality
          size).report.data →
      (edit_image cfg env image_files prompt background mask_file model n quality
        size).paths ≠ []) := by
  refine ⟨?_, ?_, ?_, ?_⟩
  · intro resp hok hdata
    rcases generate_image_shape cfg env prompt background model moderation n oc
        output_format quality size with
      ⟨m, hm, htag, _⟩ | ⟨e, he⟩ | ⟨resp', l, hr', hs', hne', hsucc⟩
    · rw [hm]; exact ⟨rfl, htag⟩
    · rw [he]; exact ⟨rfl, errTag_genError e⟩
    · rw [hok] at hr'
      injection hr' with hr''
      subst hr''
      rw [hdata] at hs'
      simp only [saveLoop] at hs'
      injection hs' with hs''
      exact absurd hs''.symm hne'
  · intro resp hok hdata
    rcases edit_image_shape cfg env image_files prompt background mask_file model n
        quality size with
      ⟨m, op, hm, htag, _⟩ | ⟨e, op, cl, he⟩ | ⟨resp', l, op, hr', hs', hne', hsucc⟩
    · rw [hm]; exact ⟨rfl, htag⟩
    · rw [he]; exact ⟨rfl, errTag_editError e⟩
    · rw [hok] at hr'
      injection hr' with hr''
      subst hr''
      rw [hdata] at hs'
      simp only [saveLoop] at hs'
      injection hs' with hs''
      exact absurd hs''.symm hne'
  · intro hban
    rcases generate_image_shape cfg env prompt background model moderation n oc
        output_format quality size with
      ⟨m, hm, _, hnot⟩ | ⟨e, he⟩ | ⟨resp', l, _, _, hne', hsucc⟩
    · rw [hm] at hban; exact absurd hban hnot
    · rw [he] at hban; exact absurd hban (genBanner_not_in_error e)
    · rw [hsucc]; exact hne'
  · intro hban
    rcases edit_image_shape cfg env image_files prompt background mask_file model n
        quality size with
      ⟨m, op, hm, _, hnot⟩ | ⟨e, op, cl, he⟩ | ⟨resp', l, op, _, _, hne', hsucc⟩
    · rw [hm] at hban; exact absurd hban hnot
    · rw [he] at hban; exact absurd hban (editBanner_not_in_error e)
    · rw [hsucc]; exact hne'

/-- Witness for C10: a zero-image response at concrete inputs, and a
successful one-image run for the success-report direction. -/
theorem zero_images_error_report_witness :
    ((generate_image ⟨some "k"⟩ wEnv0 "p" "auto" "gpt-image-1" "low" 1 85 "jpeg"
        "medium" "auto").paths = [] ∧
      "❌".data <:+: (generate_image ⟨some "k"⟩ wEnv0 "p" "auto" "gpt-image-1" "low" 1
        85 "jpeg" "medium" "auto").report.data) ∧
    ((edit_image ⟨some "k"⟩ wEnv0 (ImageFiles.single "i.png") "p" "auto" none
        "gpt-image-1" 1 "medium" "auto").paths = [] ∧
      "❌".data <:+: (edit_image ⟨some "k"⟩ wEnv0 (ImageFiles.single "i.png") "p" "auto"
        none "gpt-image-1" 1 "medium" "auto").report.data) ∧
    (generate_image ⟨some "k"⟩ wEnv1 "p" "auto" "gpt-image-1" "low" 1 85 "jpeg" "medium"
      "auto").paths ≠ [] ∧
    (edit_image ⟨some "k"⟩ wEnv1 (ImageFiles.single "i.png") "p" "auto" none
      "gpt-image-1" 1 "medium" "auto").paths ≠ [] :=
  ⟨(zero_images_error_report ⟨some "k"⟩ wEnv0 "p" "auto" "gpt-image-1" "low" 1 85 "jpeg"
      "medium" "auto" (ImageFiles.single "i.png") none).1 wResp0 rfl rfl,
   (zero_images_error_report ⟨some "k"⟩ wEnv0 "p" "auto" "gpt-image-1" "low" 1 85 "jpeg"
      "medium" "auto" (ImageFiles.single "i.png") none).2.1 wResp0 rfl rfl,
   (zero_images_error_report ⟨some "k"⟩ wEnv1 "p" "auto" "gpt-image-1" "low" 1 85 "jpeg"
      "medium" "auto" (ImageFiles.single "i.png") none).2.2.1 (by decide),
   (zero_images_error_report ⟨some "k"⟩ wEnv1 "p" "auto" "gpt-image-1" "low" 1 85 "jpeg"
      "medium" "auto" (ImageFiles.single "i.png") none).2.2.2 (by decide)⟩

/-- Merging the directory literal with the generation filename stem. -/
theorem genPath_merge (a b ext : String) :
    ("generated_images/" : String) ++ "generated_" ++ a ++ "_" ++ b ++ "." ++ ext =
    "generated_images/generated_" ++ a ++ "_" ++ b ++ "." ++ ext := by
  apply String.ext
  simp only [String.data_append]
  rw [show "generated_images/".data ++ "generated_".data =
    "generated_images/generated_".data from by decide]

/-- Merging the directory literal and the `.png` suffix for edit outputs. -/
theorem editPath_merge (a b : String) :
    ("generated_images/" : String) ++ "edited_" ++ a ++ "_" ++ b ++ "." ++ "png" =
    "generated_images/edited_" ++ a ++ "_" ++ b ++ ".png" := by
  apply String.ext
  simp only [String.data_append]
  rw [show "generated_images/".data ++ "edited_".data =
    "generated_images/edited_".data from by decide]
  rw [List.append_assoc]
  rw [show ".".data ++ "png".data = ".png".data from by decide]

/-- C8: every path returned by `generate_image` has the form
`generated_images/generated_{timestamp}_{n}.{ext}` with `ext` mapping
jpeg to jpg and any other format to itself, and every path returned by
`edit_image` has the form `generated_images/edited_{timestamp}_{n}.png`. -/
theorem output_filename_shape (cfg : Config) (env : Env)
    (prompt background model moderation : String) (n oc : Nat)
    (output_format quality size : String) (image_files : ImageFiles)
    (mask_file : Option String) (respG respE : ImagesResponse)
    (hg : env.remote_generate = .ok respG) (he : env.remote_edit = .ok respE) :
    (∀ p ∈ (generate_image cfg env prompt background model moderation n oc output_format
        quality size).paths, ∃ i,
      p = "generated_images/generated_" ++ Nat.repr respG.created ++ "_" ++
        Nat.repr (i + 1) ++ "." ++ genExt output_format) ∧
    genExt "jpeg" = "jpg" ∧ genExt "png" = "png" ∧ genExt "webp" = "webp" ∧
    (∀ p ∈ (edit_image cfg env image_files prompt background mask_file model n quality
        size).paths, ∃ i,
      p = "generated_images/edited_" ++ Nat.repr respE.created ++ "_" ++
        Nat.repr (i + 1) ++ ".png") := by
  refine ⟨?_, by decide, by decide, by decide, ?_⟩
  · intro p hp
    rcases generate_image_shape cfg env prompt background model moderation n oc
        output_format quality size with
      ⟨m, hm, _, _⟩ | ⟨e, he'⟩ | ⟨resp', l, hr', hs', _, hsucc⟩
    · rw [hm] at hp; exact absurd hp (by simp)
    · rw [he'] at hp; exact absurd hp (by simp)
    · rw [hsucc] at hp
      rw [hg] at hr'
      injection hr' with hr''
      subst hr''
      obtain ⟨j, hj⟩ := saveLoop_shape env.save "generated_" respG.created
        (genExt output_format) respG.data 0 l hs' p hp
      exact ⟨j, by rw [hj, genPath_merge]⟩
  · intro p hp
    rcases edit_image_shape cfg env image_files prompt background mask_file model n
        quality size with
      ⟨m, op, hm, _, _⟩ | ⟨e, op, cl, he'⟩ | ⟨resp', l, op, hr', hs', _, hsucc⟩
    · rw [hm] at hp; exact absurd hp (by simp)
    · rw [he'] at hp; exact absurd hp (by simp)
    · rw [hsucc] at hp
      rw [he] at hr'
      injection hr' with hr''
      subst hr''
      obtain ⟨j, hj⟩ := saveLoop_shape env.save "edited_" respE.created "png" respE.data
        0 l hs' p hp
      exact ⟨j, by rw [hj, editPath_merge]⟩

/-- Witness for C8 at concrete successful runs. -/
theorem output_filename_shape_witness :
    wEnv1.remote_generate = .ok wResp1 ∧ wEnv1.remote_edit = .ok wResp1 ∧
    ((∀ p ∈ (generate_image ⟨some "k"⟩ wEnv1 "p" "auto" "gpt-image-1" "low" 1 85 "jpeg"
        "medium" "auto").paths, ∃ i,
      p = "generated_images/generated_" ++ Nat.repr wResp1.created ++ "_" ++
        Nat.repr (i + 1) ++ "." ++ genExt "jpeg") ∧
    genExt "jpeg" = "jpg" ∧ genExt "png" = "png" ∧ genExt "webp" = "webp" ∧
    (∀ p ∈ (edit_image ⟨some "k"⟩ wEnv1 (ImageFiles.single "i.png") "p" "auto" none
        "gpt-image-1" 1 "medium" "auto").paths, ∃ i,
      p = "generated_images/edited_" ++ Nat.repr wResp1.created ++ "_" ++
        Nat.repr (i + 1) ++ ".png")) :=
  ⟨rfl, rfl,
    output_filename_shape ⟨some "k"⟩ wEnv1 "p" "auto" "gpt-image-1" "low" 1 85 "jpeg"
      "medium" "auto" (ImageFiles.single "i.png") none wResp1 wResp1 rfl rfl⟩

/-- C2 counterexample: with requested count `n = 1` and format `"jpeg"`, a
remote response carrying two images yields a successful call whose result
list has length 2 ≠ 1, and whose report does not contain the string
`"jpeg"` at all (the format is echoed upper-cased). -/
theorem generate_count_format_counterexample :
    "## ✅ Images Generated Successfully!".data <+:
      (generate_image ⟨some "k"⟩ wEnv2 "p" "auto" "gpt-image-1" "low" 1 85 "jpeg"
        "medium" "auto").report.data ∧
    (generate_image ⟨some "k"⟩ wEnv2 "p" "auto" "gpt-image-1" "low" 1 85 "jpeg" "medium"
      "auto").paths.length ≠ 1 ∧
    ¬ "jpeg".data <:+: (generate_image ⟨some "k"⟩ wEnv2 "p" "auto" "gpt-image-1" "low" 1
      85 "jpeg" "medium" "auto").report.data :=
  ⟨by decide, by decide, by decide⟩

/-- C2 (amended): on a successful call, the result list has one path per
image in the remote response — hence equals the requested count exactly
when the service returns that many — and the report contains the requested
quality and size verbatim and the output format upper-cased. -/
theorem generate_success_report_amended (cfg : Config) (env : Env)
    (prompt background model moderation : String) (n oc : Nat)
    (output_format quality size : String)
    (hp : ¬ pyStrip prompt = "") (k : String) (hk : cfg.openai_api_key = some k)
    (hkne : ¬ k = "") (resp : ImagesResponse) (hr : env.remote_generate = .ok resp)
    (hm : env.mkdir = .ok ()) (l : List String)
    (hs : saveLoop env.save "generated_" resp.created (genExt output_format) resp.data 0 =
      .ok l) (hne : ¬ l.length = 0) :
    (generate_image cfg env prompt background model moderation n oc output_format
      quality size).paths.length = resp.data.length ∧
    (resp.data.length = n →
      (generate_image cfg env prompt background model moderation n oc output_format
        quality size).paths.length = n) ∧
    quality.data <:+: (generate_image cfg env prompt background model moderation n oc
      output_format quality size).report.data ∧
    size.data <:+: (generate_image cfg env prompt background model moderation n oc
      output_format quality size).report.data ∧
    (pyUpper output_format).data <:+: (generate_image cfg env prompt background model
      moderation n oc output_format quality size).report.data := by
  have hred := generate_image_success cfg env prompt background model moderation n oc
    output_format quality size hp k hk hkne resp hr hm l hs hne
  rw [hred]
  have hlen : l.length = resp.data.length :=
    saveLoop_length env.save "generated_" resp.created (genExt output_format) resp.data
      0 l hs
  exact ⟨hlen, fun h => hlen.trans h, genInfo_quality, genInfo_size, genInfo_upperFmt⟩

/-- Witness for the amended C2 at a concrete successful run. -/
theorem generate_success_report_amended_witness :
    ¬ pyStrip "p" = "" ∧
    ((generate_image ⟨some "k"⟩ wEnv2 "p" "auto" "gpt-image-1" "low" 2 85 "jpeg"
        "medium" "auto").paths.length = wResp2.data.length ∧
    (wResp2.data.length = 2 →
      (generate_image ⟨some "k"⟩ wEnv2 "p" "auto" "gpt-image-1" "low" 2 85 "jpeg"
        "medium" "auto").paths.length = 2) ∧
    "medium".data <:+: (generate_image ⟨some "k"⟩ wEnv2 "p" "auto" "gpt-image-1" "low" 2
      85 "jpeg" "medium" "auto").report.data ∧
    "auto".data <:+: (generate_image ⟨some "k"⟩ wEnv2 "p" "auto" "gpt-image-1" "low" 2
      85 "jpeg" "medium" "auto").report.data ∧
    (pyUpper "jpeg").data <:+: (generate_image ⟨some "k"⟩ wEnv2 "p" "auto" "gpt-image-1"
      "low" 2 85 "jpeg" "medium" "auto").report.data) :=
  ⟨by decide,
    generate_success_report_amended ⟨some "k"⟩ wEnv2 "p" "auto" "gpt-image-1" "low" 2 85
      "jpeg" "medium" "auto" (by decide) "k" rfl (by decide) wResp2 rfl rfl
      ["generated_images/generated_5_1.jpg", "generated_images/generated_5_2.jpg"]
      rfl (by decide)⟩

/-- C3: `generate_image` prices text input at $5 and output at $40 per
million tokens, sums them, and in particular maps 1000 text tokens and
2000 output tokens to $0.005, $0.08 and $0.085; the success report carries
exactly these amounts (in exact micro-dollars). -/
theorem generate_cost_model (t o : Nat) (cfg : Config) (env : Env)
    (prompt background model moderation : String) (n oc : Nat)
    (output_format quality size : String)
    (hp : ¬ pyStrip prompt = "") (k : String) (hk : cfg.openai_api_key = some k)
    (hkne : ¬ k = "") (resp : ImagesResponse) (hr : env.remote_generate = .ok resp)
    (hm : env.mkdir = .ok ()) (l : List String)
    (hs : saveLoop env.save "generated_" resp.created (genExt output_format) resp.data 0 =
      .ok l) (hne : ¬ l.length = 0) :
    gen_input_cost t = ((t : ℚ) / 1000000) * 5 ∧
    gen_output_cost o = ((o : ℚ) / 1000000) * 40 ∧
    gen_total_cost t o = gen_input_cost t + gen_output_cost o ∧
    gen_input_cost 1000 = 0.005 ∧ gen_output_cost 2000 = 0.08 ∧
    gen_total_cost 1000 2000 = 0.085 ∧
    (gen_input_micro t : ℚ) = gen_input_cost t * 1000000 ∧
    (out_micro o : ℚ) = gen_output_cost o * 1000000 ∧
    ("- **Input Cost:** $" ++
      fmt4Div (gen_input_micro resp.usage.input_tokens_details.text_tokens) 1).data <:+:
      (generate_image cfg env prompt background model moderation n oc output_format
        quality size).report.data ∧
    ("- **Output Cost:** $" ++ fmt4Div (out_micro resp.usage.output_tokens) 1).data <:+:
      (generate_image cfg env prompt background model moderation n oc output_format
        quality size).report.data ∧
    ("- **Total Cost:** $" ++
      fmt4Div (gen_input_micro resp.usage.input_tokens_details.text_tokens +
        out_micro resp.usage.output_tokens) 1).data <:+:
      (generate_image cfg env prompt background model moderation n oc output_format
        quality size).report.data := by
  have hred := generate_image_success cfg env prompt background model moderation n oc
    output_format quality size hp k hk hkne resp hr hm l hs hne
  rw [hred]
  refine ⟨rfl, rfl, rfl, by norm_num [gen_input_cost], by norm_num [gen_output_cost],
    by norm_num [gen_total_cost, gen_input_cost, gen_output_cost], ?_, ?_,
    genInfo_inputCost, genInfo_outputCost, genInfo_totalCost⟩
  · simp only [gen_input_micro, gen_input_cost]
    push_cast
    ring
  · simp only [out_micro, gen_output_cost]
    push_cast
    ring

/-- Witness for C3 at the concrete token counts of the claim. -/
theorem generate_cost_model_witness :
    gen_input_cost 1000 = 0.005 ∧ gen_output_cost 2000 = 0.08 ∧
    gen_total_cost 1000 2000 = 0.085 ∧
    ("- **Input Cost:** $" ++
      fmt4Div (gen_input_micro wResp1.usage.input_tokens_details.text_tokens) 1).data <:+:
      (generate_image ⟨some "k"⟩ wEnv1 "p" "auto" "gpt-image-1" "low" 1 85 "jpeg"
        "medium" "auto").report.data :=
  have h := generate_cost_model 1000 2000 ⟨some "k"⟩ wEnv1 "p" "auto" "gpt-image-1"
    "low" 1 85 "jpeg" "medium" "auto" (by decide) "k" rfl (by decide) wResp1 rfl rfl
    ["generated_images/generated_1700000000_1.jpg"] rfl (by decide)
  ⟨h.2.2.2.1, h.2.2.2.2.1, h.2.2.2.2.2.1, h.2.2.2.2.2.2.2.2.1⟩

/-- C4: `edit_image` prices text input at $5, image input at $10 and
output at $40 per million tokens, sums input and output cost, and divides
the total by the output-image count for the per-image figure; the report
carries exactly these amounts. -/
theorem edit_cost_model (t i o : Nat) (cfg : Config) (env : Env)
    (image_files : ImageFiles) (prompt background : String) (mask_file : Option String)
    (model : String) (n : Nat) (quality size : String)
    (himg : ¬ image_files = ImageFiles.noFile) (hp : ¬ pyStrip prompt = "")
    (k : String) (hk : cfg.openai_api_key = some k) (hkne : ¬ k = "")
    (opened : List String)
    (ho : openAll env.openFile (srcPaths image_files) = .ok opened)
    (hcnt : ¬ (srcPaths image_files).length = 0)
    (hmask : (if maskTruthy mask_file then env.openFile ((mask_file).getD "")
      else Except.ok ()) = .ok ())
    (resp : ImagesResponse) (hr : env.remote_edit = .ok resp)
    (hm : env.mkdir = .ok ()) (l : List String)
    (hs : saveLoop env.save "edited_" resp.created "png" resp.data 0 = .ok l)
    (hne : ¬ l.length = 0) (hn : resp.data.length = n) :
    edit_input_cost t i = ((t : ℚ) / 1000000) * 5 + ((i : ℚ) / 1000000) * 10 ∧
    edit_output_cost o = ((o : ℚ) / 1000000) * 40 ∧
    edit_total_cost t i o = edit_input_cost t i + edit_output_cost o ∧
    (∀ count : Nat, per_image_cost (edit_total_cost t i o) count =
      edit_total_cost t i o / count) ∧
    (∀ count : Nat, count ≠ 0 →
      per_image_cost (edit_total_cost t i o) count * count = edit_total_cost t i o) ∧
    (edit_input_micro t i : ℚ) = edit_input_cost t i * 1000000 ∧
    (out_micro o : ℚ) = edit_output_cost o * 1000000 ∧
    ("- **Input Cost:** $" ++
      fmt4Div (edit_input_micro resp.usage.input_tokens_details.text_tokens
        resp.usage.input_tokens_details.image_tokens) 1).data <:+:
      (edit_image cfg env image_files prompt background mask_file model n quality
        size).report.data ∧
    ("- **Output Cost:** $" ++ fmt4Div (out_micro resp.usage.output_tokens) 1).data <:+:
      (edit_image cfg env image_files prompt background mask_file model n quality
        size).report.data ∧
    ("- **Total Cost:** $" ++
      fmt4Div (edit_input_micro resp.usage.input_tokens_details.text_tokens
          resp.usage.input_tokens_details.image_tokens +
        out_micro resp.usage.output_tokens) 1).data <:+:
      (edit_image cfg env image_files prompt background mask_file model n quality
        size).report.data ∧
    ("- **Cost per Output Image:** $" ++
      fmt4Div (edit_input_micro resp.usage.input_tokens_details.text_tokens
          resp.usage.input_tokens_details.image_tokens +
        out_micro resp.usage.output_tokens) n).data <:+:
      (edit_image cfg env image_files prompt background mask_file model n quality
        size).report.data := by
  have hred := edit_image_success cfg env image_files prompt background mask_file model
    n quality size himg hp k hk hkne opened ho hcnt hmask resp hr hm l hs hne
  rw [hred]
  have hlen : l.length = n :=
    (saveLoop_length env.save "edited_" resp.created "png" resp.data 0 l hs).trans hn
  refine ⟨rfl, rfl, rfl, fun count => rfl, ?_, ?_, ?_, editInfo_inputCost,
    editInfo_outputCost, editInfo_totalCost, ?_⟩
  · intro count hcount
    have : (count : ℚ) ≠ 0 := Nat.cast_ne_zero.mpr hcount
    simp only [per_image_cost]
    field_simp
  · simp only [edit_input_micro, edit_input_cost]
    push_cast
    ring
  · simp only [out_micro, edit_output_cost]
    push_cast
    ring
  · rw [← hlen]
    exact editInfo_perImage

/-- Witness for C4 at concrete token counts and a one-image response. -/
theorem edit_cost_model_witness :
    edit_input_cost 1000 0 = ((1000 : ℚ) / 1000000) * 5 + ((0 : ℚ) / 1000000) * 10 ∧
    (∀ count : Nat, count ≠ 0 →
      per_image_cost (edit_total_cost 1000 0 2000) count * count =
        edit_total_cost 1000 0 2000) ∧
    ("- **Cost per Output Image:** $" ++
      fmt4Div (edit_input_micro wResp1.usage.input_tokens_details.text_tokens
          wResp1.usage.input_tokens_details.image_tokens +
        out_micro wResp1.usage.output_tokens) 1).data <:+:
      (edit_image ⟨some "k"⟩ wEnv1 (ImageFiles.single "i.png") "p" "auto" none
        "gpt-image-1" 1 "medium" "auto").report.data :=
  have h := edit_cost_model 1000 0 2000 ⟨some "k"⟩ wEnv1 (ImageFiles.single "i.png") "p"
    "auto" none "gpt-image-1" 1 "medium" "auto" (by decide) (by decide) "k" rfl
    (by decide) ["i.png"] rfl (by decide) rfl wResp1 rfl rfl
    ["generated_images/edited_1700000000_1.png"] rfl (by decide) rfl
  ⟨h.1, h.2.2.2.2.1, h.2.2.2.2.2.2.2.2.2.2⟩

/-- On success `openAll` opens exactly the given paths, in order. -/
theorem openAll_ok (f : String → Except String Unit) :
    ∀ (ps : List String) (l : List String), openAll f ps = .ok l → l = ps := by
  intro ps
  induction ps with
  | nil =>
    intro l h
    simp only [openAll] at h
    injection h with h
    exact h.symm
  | cons p ps ih =>
    intro l h
    simp only [openAll] at h
    split at h
    · exact absurd h (by simp)
    · split at h
      · exact absurd h (by simp)
      · next opened heq =>
        injection h with h
        rw [← h, ih opened heq]

/-- C9 counterexample: a single source image and a mask are opened, the
remote edit call raises, and no stream is closed. -/
theorem edit_streams_counterexample :
    (edit_image ⟨some "k"⟩ wEnvBoom (ImageFiles.single "img.png") "fix" "auto"
      (some "m.png") "gpt-image-1" 1 "medium" "auto").remoteCalled = true ∧
    (edit_image ⟨some "k"⟩ wEnvBoom (ImageFiles.single "img.png") "fix" "auto"
      (some "m.png") "gpt-image-1" 1 "medium" "auto").opened = ["img.png", "m.png"] ∧
    (edit_image ⟨some "k"⟩ wEnvBoom (ImageFiles.single "img.png") "fix" "auto"
      (some "m.png") "gpt-image-1" 1 "medium" "auto").closed = [] :=
  ⟨by decide, by decide, by decide⟩

/-- C9 (amended): on the reached-the-call paths, every stream opened for
the remote call (source images and mask) is closed when the call returns;
on the path where the remote call raises, no stream is closed at all. -/
theorem edit_streams_amended (cfg : Config) (env : Env) (image_files : ImageFiles)
    (prompt background : String) (mask_file : Option String) (model : String) (n : Nat)
    (quality size : String)
    (himg : ¬ image_files = ImageFiles.noFile) (hp : ¬ pyStrip prompt = "")
    (k : String) (hk : cfg.openai_api_key = some k) (hkne : ¬ k = "")
    (opened : List String)
    (ho : openAll env.openFile (srcPaths image_files) = .ok opened)
    (hcnt : ¬ (srcPaths image_files).length = 0)
    (hmask : (if maskTruthy mask_file then env.openFile ((mask_file).getD "")
      else Except.ok ()) = .ok ()) :
    (∀ resp, env.remote_edit = .ok resp →
      (edit_image cfg env image_files prompt background mask_file model n quality
        size).closed =
      (edit_image cfg env image_files prompt background mask_file model n quality
        size).opened) ∧
    (∀ e, env.remote_edit = .error e →
      (edit_image cfg env image_files prompt background mask_file model n quality
        size).closed = [] ∧
      (edit_image cfg env image_files prompt background mask_file model n quality
        size).opened ≠ []) := by
  constructor
  · intro resp hok
    cases hmk : env.mkdir with
    | error e =>
      have heq : edit_image cfg env image_files prompt background mask_file model n
          quality size = ⟨[], editError e, true,
            opened ++ (if maskTruthy mask_file then [(mask_file).getD ""] else []),
            opened ++ (if maskTruthy mask_file then [(mask_file).getD ""] else [])⟩ := by
        simp only [edit_image, if_neg himg, if_neg hp, hk, if_neg hkne, ho, if_neg hcnt,
          hmask, hok, hmk]
      rw [heq]
    | ok u =>
      cases u
      cases hs : saveLoop env.save "edited_" resp.created "png" resp.data 0 with
      | error e =>
        have heq : edit_image cfg env image_files prompt background mask_file model n
            quality size = ⟨[], editError e, true,
              opened ++ (if maskTruthy mask_file then [(mask_file).getD ""] else []),
              opened ++ (if maskTruthy mask_file then [(mask_file).getD ""] else [])⟩ := by
          simp only [edit_image, if_neg himg, if_neg hp, hk, if_neg hkne, ho,
            if_neg hcnt, hmask, hok, hmk, hs]
        rw [heq]
      | ok l =>
        by_cases hne : l.length = 0
        · have heq : edit_image cfg env image_files prompt background mask_file model n
              quality size = ⟨[], editError "float division by zero", true,
                opened ++ (if maskTruthy mask_file then [(mask_file).getD ""] else []),
                opened ++ (if maskTruthy mask_file then [(mask_file).getD ""] else [])⟩ := by
            simp only [edit_image, if_neg himg, if_neg hp, hk, if_neg hkne, ho,
              if_neg hcnt, hmask, hok, hmk, hs, if_pos hne]
          rw [heq]
        · rw [edit_image_success cfg env image_files prompt background mask_file model n
            quality size himg hp k hk hkne opened ho hcnt hmask resp hok hmk l hs hne]
  · intro e herr
    rw [edit_image_remote_error cfg env image_files prompt background mask_file model n
      quality size himg hp k hk hkne opened ho hcnt hmask e herr]
    refine ⟨rfl, ?_⟩
    intro hnil
    rcases List.append_eq_nil.mp hnil with ⟨h1, _⟩
    have : opened = srcPaths image_files := openAll_ok env.openFile _ opened ho
    rw [this] at h1
    exact hcnt (by rw [h1]; rfl)

/-- Witness for the amended C9: close-on-success at one environment and
no-close-on-raise at another. -/
theorem edit_streams_amended_witness :
    ((edit_image ⟨some "k"⟩ wEnv1 (ImageFiles.single "img.png") "fix" "auto"
        (some "m.png") "gpt-image-1" 1 "medium" "auto").closed =
      (edit_image ⟨some "k"⟩ wEnv1 (ImageFiles.single "img.png") "fix" "auto"
        (some "m.png") "gpt-image-1" 1 "medium" "auto").opened) ∧
    ((edit_image ⟨some "k"⟩ wEnvBoom (ImageFiles.single "img.png") "fix" "auto"
        (some "m.png") "gpt-image-1" 1 "medium" "auto").closed = [] ∧
      (edit_image ⟨some "k"⟩ wEnvBoom (ImageFiles.single "img.png") "fix" "auto"
        (some "m.png") "gpt-image-1" 1 "medium" "auto").opened ≠ []) :=
  ⟨(edit_streams_amended ⟨some "k"⟩ wEnv1 (ImageFiles.single "img.png") "fix" "auto"
      (some "m.png") "gpt-image-1" 1 "medium" "auto" (by decide) (by decide) "k" rfl
      (by decide) ["img.png"] rfl (by decide) rfl).1 wResp1 rfl,
   (edit_streams_amended ⟨some "k"⟩ wEnvBoom (ImageFiles.single "img.png") "fix" "auto"
      (some "m.png") "gpt-image-1" 1 "medium" "auto" (by decide) (by decide) "k" rfl
      (by decide) ["img.png"] rfl (by decide) rfl).2 "boom" rfl⟩
